import Mathlib

/-!
Shallow embedding of the "doctor game" update pipeline (src/game.js).
Positions, sizes, speeds and times are modelled as rationals; the canvas
dimensions (`canvas.width`, `canvas.height`), the keyboard input snapshot
and the results of the two `Math.random()` draws in the spawner are passed
as explicit parameters, since in the source they are ambient globals or
nondeterministic values.
-/

namespace Game

/-- `PLAYER_SIZE` constant from game.js line 1. -/
def PLAYER_SIZE : ℚ := 150

/-- `BLOCK_SIZE` constant from game.js line 2. -/
def BLOCK_SIZE : ℚ := 70

/-- `position {x, y}` component. -/
structure Position where
  x : ℚ
  y : ℚ
deriving DecidableEq

/-- `size {w, h}` component. -/
structure Size where
  w : ℚ
  h : ℚ
deriving DecidableEq

/-- `falling {baseSpeed, speed}` component. -/
structure Falling where
  baseSpeed : ℚ
  speed : ℚ
deriving DecidableEq

/-- Block kind: `"good"` or `"bad"`. -/
inductive Kind where
  | good
  | bad
deriving DecidableEq

/-- `tag {kind}` component. -/
structure Tag where
  kind : Kind
deriving DecidableEq

/-- The sparse component record of an entity.  Every entity built by the
source (`player` and `createBlock`) has `position` and `size`, and every
access to those two components in the stages is unconditional, so they are
mandatory; `falling` and `tag` are optional, exactly the components the
stages test for presence (`if (!f || !p)`, `if (!tag)`). -/
structure Components where
  position : Position
  size : Size
  falling : Option Falling
  tag : Option Tag
deriving DecidableEq

/-- An entity: an `id` plus components. -/
structure Entity where
  id : String
  components : Components
deriving DecidableEq

/-- `spawn` record of the world. -/
structure Spawn where
  last : ℚ
  baseInterval : ℚ
  interval : ℚ
  minInterval : ℚ
deriving DecidableEq

/-- `game` record of the world. -/
structure GameFlags where
  over : Bool
deriving DecidableEq

/-- `difficulty` record of the world. -/
structure Difficulty where
  step : ℚ
  factor : ℚ
deriving DecidableEq

/-- `{left, right}` input snapshot. -/
structure Input where
  left : Bool
  right : Bool
deriving DecidableEq

/-- The world snapshot.  `input` is `Option` because the field is absent
until `inputSystem` first adds it (`world.input || {}` in the source). -/
@[ext]
structure World where
  entities : List Entity
  time : ℚ
  spawn : Spawn
  score : ℕ
  game : GameFlags
  difficulty : Difficulty
  input : Option Input
deriving DecidableEq

/-- `createWorld` from game.js: the initial world (before the player is
added); the `input` field does not exist yet. -/
def createWorld : World :=
  { entities := []
    time := 0
    spawn := { last := 0, baseInterval := 8/10, interval := 8/10, minInterval := 1/4 }
    score := 0
    game := { over := false }
    difficulty := { step := 30, factor := 5/4 }
    input := none }

/-- `addEntity` from game.js: appends an entity to the entity list. -/
def addEntity (world : World) (entity : Entity) : World :=
  { world with entities := world.entities ++ [entity] }

/-- The `player` entity built at startup in game.js, parameterized by the
canvas dimensions. -/
def createPlayer (cw ch : ℚ) : Entity :=
  { id := "player"
    components :=
      { position := { x := cw / 2 - PLAYER_SIZE / 2, y := ch - PLAYER_SIZE - 20 }
        size := { w := PLAYER_SIZE, h := PLAYER_SIZE }
        falling := none
        tag := none } }

/-- `pipeSystems` from game.js: `reduce` of the systems over the world. -/
def pipeSystems (systems : List (World → ℚ → World)) (world : World) (dt : ℚ) : World :=
  systems.foldl (fun w sys => sys w dt) world

/-- `setInput` from game.js: key handling for the input snapshot. -/
def setInput (state : Input) (key : String) (isDown : Bool) : Input :=
  if key = "ArrowLeft" then { state with left := isDown }
  else if key = "ArrowRight" then { state with right := isDown }
  else state

/-- `inputSystem` from game.js: copies the ambient `inputState` snapshot
into the world. -/
def inputSystem (inputState : Input) (world : World) (_dt : ℚ) : World :=
  { world with input := some inputState }

/-- The horizontal displacement per second chosen by `movementSystem` from
the input: `(input.left ? -speed : 0) + (input.right ? speed : 0)` with
`speed = 350`; a missing `world.input` reads as both keys up
(`world.input || {}`, and `undefined` is falsy). -/
def playerDx (input : Option Input) : ℚ :=
  let i := input.getD { left := false, right := false }
  (if i.left then -350 else 0) + (if i.right then 350 else 0)

/-- The per-entity callback of the `map` inside `movementSystem`:
non-player entities pass through, the player gets
`newX = Math.max(0, Math.min(canvas.width - PLAYER_SIZE, p.x + dx * dt))`. -/
def moveEntity (cw : ℚ) (input : Option Input) (dt : ℚ) (e : Entity) : Entity :=
  if e.id ≠ "player" then e
  else
    let p := e.components.position
    let dx := playerDx input
    let newX := max 0 (min (cw - PLAYER_SIZE) (p.x + dx * dt))
    { e with components := { e.components with position := { x := newX, y := p.y } } }

/-- `movementSystem` from game.js: maps `moveEntity` over the entities. -/
def movementSystem (cw : ℚ) (world : World) (dt : ℚ) : World :=
  { world with entities := world.entities.map (moveEntity cw world.input dt) }

/-- `timeSystem` from game.js: advances `time` by `dt`. -/
def timeSystem (world : World) (dt : ℚ) : World :=
  { world with time := world.time + dt }

/-- `createBlock` from game.js: a new block entity at `y = -BLOCK_SIZE`
with `falling = {baseSpeed: 160, speed: 160}` and the given tag kind. -/
def createBlock (id : String) (x : ℚ) (kind : Kind) : Entity :=
  { id
    components :=
      { position := { x, y := -BLOCK_SIZE }
        size := { w := BLOCK_SIZE, h := BLOCK_SIZE }
        falling := some { baseSpeed := 160, speed := 160 }
        tag := some { kind } } }

/-- The string interpolation of a kind, as in the template literal
`${kind}_...` of game.js. -/
def Kind.str : Kind → String
  | .good => "good"
  | .bad => "bad"

/-- `spawnerSystem` from game.js.  The two `Math.random()` results are the
parameters `rx` (drives the x coordinate) and `rk` (drives the kind). -/
def spawnerSystem (cw rx rk : ℚ) (world : World) (_dt : ℚ) : World :=
  let last := world.spawn.last
  let interval := world.spawn.interval
  if world.time - last < interval then world
  else
    let x := rx * (cw - BLOCK_SIZE)
    let kind := if rk < 7/10 then Kind.bad else Kind.good
    let blockId := kind.str ++ "_" ++ toString ⌊world.time * 1000⌋
    let block := createBlock blockId x kind
    let newWorld := addEntity world block
    { newWorld with spawn := { world.spawn with last := world.time } }

/-- The per-entity callback of the `map` inside `fallingSystem`: advances
`y` by `speed * dt` for every entity that has both `falling` and `position`
(in this embedding `position` is always present, so the guard reduces to
the presence of `falling`). -/
def fallEntity (dt : ℚ) (e : Entity) : Entity :=
  match e.components.falling with
  | none => e
  | some f =>
    let p := e.components.position
    { e with components := { e.components with position := { x := p.x, y := p.y + f.speed * dt } } }

/-- `fallingSystem` from game.js: maps `fallEntity` over the entities. -/
def fallingSystem (world : World) (dt : ℚ) : World :=
  { world with entities := world.entities.map (fallEntity dt) }

/-- The per-entity callback of the `map` inside `difficultySystem`:
recomputes every falling speed as `baseSpeed * speedMult`. -/
def applySpeedMult (speedMult : ℚ) (e : Entity) : Entity :=
  match e.components.falling with
  | none => e
  | some f =>
    { e with components := { e.components with
        falling := some { f with speed := f.baseSpeed * speedMult } } }

/-- `difficultySystem` from game.js: with `level = Math.floor(time / step)`,
recomputes every falling speed as `baseSpeed * factor ^ level` and the
spawn interval as `max(baseInterval * (1/factor) ^ level, minInterval)`. -/
def difficultySystem (world : World) (_dt : ℚ) : World :=
  let step := world.difficulty.step
  let factor := world.difficulty.factor
  let level : ℤ := ⌊world.time / step⌋
  let speedMult := factor ^ level
  let intervalMult := (1 / factor) ^ level
  let newEntities := world.entities.map (applySpeedMult speedMult)
  let rawInterval := world.spawn.baseInterval * intervalMult
  let newInterval := max rawInterval world.spawn.minInterval
  { world with entities := newEntities, spawn := { world.spawn with interval := newInterval } }

/-- A hit rectangle. -/
structure Rect where
  x : ℚ
  y : ℚ
  w : ℚ
  h : ℚ
deriving DecidableEq

/-- Per-side margins. -/
structure Margins where
  left : ℚ
  right : ℚ
  top : ℚ
  bottom : ℚ
deriving DecidableEq

/-- `hitboxWithMargins` from game.js. -/
def hitboxWithMargins (p : Position) (s : Size) (m : Margins) : Rect :=
  { x := p.x + s.w * m.left
    y := p.y + s.h * m.top
    w := s.w * (1 - m.left - m.right)
    h := s.h * (1 - m.top - m.bottom) }

/-- `PLAYER_MARGINS` from game.js. -/
def PLAYER_MARGINS : Margins := { left := 15/100, right := 40/100, top := 8/100, bottom := 6/100 }

/-- `GOOD_MARGINS` from game.js. -/
def GOOD_MARGINS : Margins := { left := 14/100, right := 14/100, top := 8/100, bottom := 18/100 }

/-- `BAD_MARGINS` from game.js. -/
def BAD_MARGINS : Margins := { left := 8/100, right := 8/100, top := 8/100, bottom := 7/100 }

/-- `rectsOverlap` from game.js: strict AABB overlap. -/
def rectsOverlap (a b : Rect) : Bool :=
  decide (a.x < b.x + b.w) && decide (a.x + a.w > b.x) &&
  decide (a.y < b.y + b.h) && decide (a.y + a.h > b.y)

/-- The keep-predicate of the `filter` inside `collisionSystem`: `true`
keeps the entity, `false` removes it (only good-tagged entities whose
margin-adjusted rectangle overlaps the player's are removed).  `earned` is
incremented in the source exactly when this predicate returns `false`. -/
def collisionKeep (playerRect : Rect) (e : Entity) : Bool :=
  match e.components.tag with
  | none => true
  | some tag =>
    let margins := if tag.kind = Kind.good then GOOD_MARGINS else BAD_MARGINS
    let blockRect := hitboxWithMargins e.components.position e.components.size margins
    if !(rectsOverlap playerRect blockRect) then true
    else if tag.kind = Kind.good then false
    else true

/-- The predicate of the `some()` call inside `collisionSystem`: a
bad-tagged entity whose margin-adjusted rectangle overlaps the player's. -/
def entityHitsBad (playerRect : Rect) (e : Entity) : Bool :=
  match e.components.tag with
  | none => false
  | some tag =>
    if tag.kind ≠ Kind.bad then false
    else rectsOverlap playerRect (hitboxWithMargins e.components.position e.components.size BAD_MARGINS)

/-- Characterization of the entities the collision filter removes and the
`earned` counter counts: good-tagged entities whose margin-adjusted
rectangle overlaps the player's (proved equal to `!(collisionKeep r e)`
below). -/
def goodPickup (r : Rect) (e : Entity) : Bool :=
  match e.components.tag with
  | none => false
  | some tag =>
    decide (tag.kind = Kind.good) &&
    rectsOverlap r (hitboxWithMargins e.components.position e.components.size GOOD_MARGINS)

/-- The player's margin-adjusted hit rectangle, as computed by
`collisionSystem`. -/
def playerRectOf (player : Entity) : Rect :=
  hitboxWithMargins player.components.position player.components.size PLAYER_MARGINS

/-- `collisionSystem` from game.js.  `earned` equals the number of
entities the filter removes, since the source increments it exactly on the
branches where the filter callback returns `false`. -/
def collisionSystem (world : World) (_dt : ℚ) : World :=
  if world.game.over then world
  else
    match world.entities.find? (fun e => e.id == "player") with
    | none => world
    | some player =>
      let playerRect := playerRectOf player
      let newEntities := world.entities.filter (collisionKeep playerRect)
      let earned := world.entities.countP (fun e => !(collisionKeep playerRect e))
      let hitBad := world.entities.any (entityHitsBad playerRect)
      { world with entities := newEntities, score := world.score + earned, game := { over := hitBad } }

/-- The keep-predicate of the `filter` inside `cleanupSystem`: untagged
entities are kept, tagged ones iff `p.y < canvas.height + s.h`. -/
def cleanupKeep (ch : ℚ) (e : Entity) : Bool :=
  match e.components.tag with
  | none => true
  | some _ => decide (e.components.position.y < ch + e.components.size.h)

/-- `cleanupSystem` from game.js: filters the entities by `cleanupKeep`. -/
def cleanupSystem (ch : ℚ) (world : World) (_dt : ℚ) : World :=
  { world with entities := world.entities.filter (cleanupKeep ch) }

/-- `update` from game.js: the fixed pipeline of the eight stages, in
source order, with the ambient globals and random draws as parameters. -/
def update (cw ch : ℚ) (inputState : Input) (rx rk : ℚ) : World → ℚ → World :=
  pipeSystems
    [ timeSystem
    , inputSystem inputState
    , movementSystem cw
    , spawnerSystem cw rx rk
    , fallingSystem
    , difficultySystem
    , collisionSystem
    , cleanupSystem ch ]

/-- One tick's worth of external data: the frame delta, the input snapshot
taken that frame, and the spawner's two random draws. -/
structure Tick where
  dt : ℚ
  input : Input
  rx : ℚ
  rk : ℚ

/-- Iterated pipeline passes, one per tick (the animation-frame loop). -/
def runTicks (cw ch : ℚ) (w : World) : List Tick → World
  | [] => w
  | t :: ts => runTicks cw ch (update cw ch t.input t.rx t.rk w t.dt) ts

/-! Concrete entities and worlds used by the witness theorems. -/

/-- A sample player entity. -/
def plW : Entity :=
  { id := "player"
    components :=
      { position := { x := 100, y := 400 }, size := { w := 150, h := 150 }
        falling := none, tag := none } }

/-- A sample good block overlapping `plW`'s hit rectangle. -/
def goodW : Entity :=
  { id := "good_1"
    components :=
      { position := { x := 100, y := 380 }, size := { w := 70, h := 70 }
        falling := some { baseSpeed := 160, speed := 160 }, tag := some { kind := Kind.good } } }

/-- A sample bad block overlapping `plW`'s hit rectangle. -/
def badW : Entity :=
  { id := "bad_1"
    components :=
      { position := { x := 150, y := 380 }, size := { w := 70, h := 70 }
        falling := some { baseSpeed := 160, speed := 160 }, tag := some { kind := Kind.bad } } }

/-- A sample world holding the three sample entities, mid-game. -/
def wSample : World :=
  { entities := [plW, goodW, badW]
    time := 1
    spawn := { last := 0, baseInterval := 8/10, interval := 8/10, minInterval := 1/4 }
    score := 5
    game := { over := false }
    difficulty := { step := 30, factor := 5/4 }
    input := none }

/-- `wSample` without the bad block (for the pickup witness). -/
def wGoodOnly : World := { wSample with entities := [plW, goodW] }

/-- A world whose spawn gate is closed (`time - last < interval`). -/
def wGateClosed : World := { wSample with time := 1/2, entities := [plW] }

/-- A world whose spawn gate is open (`time - last ≥ interval`). -/
def wGateOpen : World := { wSample with time := 1, entities := [plW] }

/-- A player whose size is not `150`, for the movement-constant claims. -/
def plSmall : Entity :=
  { id := "player"
    components :=
      { position := { x := 50, y := 400 }, size := { w := 70, h := 70 }
        falling := none, tag := none } }

/-- A world holding only `plSmall`. -/
def wSmall : World := { wSample with entities := [plSmall] }

/-- A tagged entity exactly at the cleanup boundary `y = ch + h` for
`ch = 600`. -/
def blockAtBoundary : Entity :=
  { id := "bad_2"
    components :=
      { position := { x := 0, y := 670 }, size := { w := 70, h := 70 }
        falling := some { baseSpeed := 160, speed := 160 }, tag := some { kind := Kind.bad } } }

/-- A tagged entity one pixel above the cleanup boundary for `ch = 600`. -/
def blockAboveBoundary : Entity :=
  { id := "bad_3"
    components :=
      { position := { x := 0, y := 669 }, size := { w := 70, h := 70 }
        falling := some { baseSpeed := 160, speed := 160 }, tag := some { kind := Kind.bad } } }

/-- A world exercising both sides of the cleanup boundary. -/
def wCleanup : World := { wSample with entities := [plW, blockAtBoundary, blockAboveBoundary] }

/-- A world with no player entity at all. -/
def wNoPlayer : World := { wSample with entities := [goodW, badW] }

/-- A world whose game is already over. -/
def wOver : World := { wSample with game := { over := true } }

/-! Helper lemmas. -/

theorem collisionKeep_eq_not_goodPickup (r : Rect) (e : Entity) :
    collisionKeep r e = !(goodPickup r e) := by
  unfold collisionKeep goodPickup
  cases htag : e.components.tag with
  | none => rfl
  | some t =>
    cases hk : t.kind <;>
      cases ho : rectsOverlap r (hitboxWithMargins e.components.position e.components.size GOOD_MARGINS) <;>
        simp [hk, ho]

theorem collisionKeep_of_bad (r : Rect) (e : Entity) (t : Tag)
    (htag : e.components.tag = some t) (hk : t.kind = Kind.bad) :
    collisionKeep r e = true := by
  rw [collisionKeep_eq_not_goodPickup]
  unfold goodPickup
  rw [htag]
  simp [hk]

theorem collisionKeep_of_untagged (r : Rect) (e : Entity)
    (htag : e.components.tag = none) : collisionKeep r e = true := by
  unfold collisionKeep
  rw [htag]

theorem collisionSystem_eq_of_found (w : World) (dt : ℚ) (pl : Entity)
    (hover : w.game.over = false)
    (hfind : w.entities.find? (fun e => e.id == "player") = some pl) :
    collisionSystem w dt =
      { w with
        entities := w.entities.filter (collisionKeep (playerRectOf pl))
        score := w.score + w.entities.countP (fun e => !(collisionKeep (playerRectOf pl) e))
        game := { over := w.entities.any (entityHitsBad (playerRectOf pl)) } } := by
  unfold collisionSystem
  rw [hover, hfind]
  rfl

theorem collisionKeep_fun_eq (r : Rect) :
    collisionKeep r = fun e => !(goodPickup r e) :=
  funext fun e => collisionKeep_eq_not_goodPickup r e

/-- Claim C1: in a live world (`game.over = false`) containing a player
entity, one collision-stage call removes every good-tagged block whose
margin-adjusted hit rectangle strictly overlaps the player's
margin-adjusted hit rectangle, and raises the score by exactly the number
of such blocks (one per overlapping good block). -/
theorem collision_good_pickup (w : World) (dt : ℚ) (pl : Entity)
    (hover : w.game.over = false)
    (hfind : w.entities.find? (fun e => e.id == "player") = some pl) :
    (collisionSystem w dt).score = w.score + w.entities.countP (goodPickup (playerRectOf pl))
    ∧ (collisionSystem w dt).entities
        = w.entities.filter (fun e => !(goodPickup (playerRectOf pl) e))
    ∧ ∀ e ∈ w.entities, goodPickup (playerRectOf pl) e = true →
        e ∉ (collisionSystem w dt).entities := by
  rw [collisionSystem_eq_of_found w dt pl hover hfind, collisionKeep_fun_eq]
  refine ⟨by simp, rfl, ?_⟩
  intro e _ hpick hmem
  have := (List.mem_filter.mp hmem).2
  simp [hpick] at this

/-- Witness for C1: in `wGoodOnly` the single good block overlaps the
player, the pickup count is 1, and the collision stage scores it and
removes it. -/
theorem collision_good_pickup_witness :
    wGoodOnly.entities.countP (goodPickup (playerRectOf plW)) = 1
    ∧ wGoodOnly.game.over = false
    ∧ wGoodOnly.entities.find? (fun e => e.id == "player") = some plW
    ∧ ((collisionSystem wGoodOnly (1/60)).score
          = wGoodOnly.score + wGoodOnly.entities.countP (goodPickup (playerRectOf plW))
      ∧ (collisionSystem wGoodOnly (1/60)).entities
          = wGoodOnly.entities.filter (fun e => !(goodPickup (playerRectOf plW) e))
      ∧ ∀ e ∈ wGoodOnly.entities, goodPickup (playerRectOf plW) e = true →
          e ∉ (collisionSystem wGoodOnly (1/60)).entities) :=
  ⟨by norm_num +decide [wGoodOnly, wSample, plW, goodW, goodPickup, playerRectOf,
      hitboxWithMargins, PLAYER_MARGINS, GOOD_MARGINS, rectsOverlap, List.countP, List.countP.go],
   rfl, rfl, collision_good_pickup wGoodOnly (1/60) plW rfl rfl⟩

/-- Claim C2: in a live world containing a player entity where at least
one bad-tagged block's margin-adjusted hit rectangle overlaps the
player's, one collision-stage call sets `game.over = true`, keeps every
bad-tagged block in the entity list, and still adds one point per
overlapping good block in the same call. -/
theorem collision_bad_gameover (w : World) (dt : ℚ) (pl : Entity)
    (hover : w.game.over = false)
    (hfind : w.entities.find? (fun e => e.id == "player") = some pl)
    (hbad : w.entities.any (entityHitsBad (playerRectOf pl)) = true) :
    (collisionSystem w dt).game.over = true
    ∧ (∀ e ∈ w.entities, ∀ t, e.components.tag = some t → t.kind = Kind.bad →
        e ∈ (collisionSystem w dt).entities)
    ∧ (collisionSystem w dt).score = w.score + w.entities.countP (goodPickup (playerRectOf pl)) := by
  rw [collisionSystem_eq_of_found w dt pl hover hfind]
  refine ⟨hbad, ?_, ?_⟩
  · intro e he t htag hk
    exact List.mem_filter.mpr ⟨he, collisionKeep_of_bad _ e t htag hk⟩
  · rw [collisionKeep_fun_eq]
    simp

/-- Witness for C2: in `wSample` both a good and a bad block overlap the
player; the same collision call scores the good block, ends the game, and
keeps the bad block. -/
theorem collision_bad_gameover_witness :
    wSample.entities.countP (goodPickup (playerRectOf plW)) = 1
    ∧ wSample.game.over = false
    ∧ wSample.entities.find? (fun e => e.id == "player") = some plW
    ∧ wSample.entities.any (entityHitsBad (playerRectOf plW)) = true
    ∧ ((collisionSystem wSample (1/60)).game.over = true
      ∧ (∀ e ∈ wSample.entities, ∀ t, e.components.tag = some t → t.kind = Kind.bad →
          e ∈ (collisionSystem wSample (1/60)).entities)
      ∧ (collisionSystem wSample (1/60)).score
          = wSample.score + wSample.entities.countP (goodPickup (playerRectOf plW))) :=
  ⟨by norm_num +decide [wSample, plW, goodW, badW, goodPickup, playerRectOf,
      hitboxWithMargins, PLAYER_MARGINS, GOOD_MARGINS, rectsOverlap, List.countP, List.countP.go],
   rfl, rfl,
   by norm_num +decide [wSample, plW, goodW, badW, entityHitsBad, playerRectOf,
      hitboxWithMargins, PLAYER_MARGINS, BAD_MARGINS, rectsOverlap, List.any],
   collision_bad_gameover wSample (1/60) plW rfl rfl
     (by norm_num +decide [wSample, plW, goodW, badW, entityHitsBad, playerRectOf,
        hitboxWithMargins, PLAYER_MARGINS, BAD_MARGINS, rectsOverlap, List.any])⟩

theorem spawnerSystem_spawn_eq (cw rx rk : ℚ) (w : World) (dt : ℚ)
    (h : ¬ (w.time - w.spawn.last < w.spawn.interval)) :
    spawnerSystem cw rx rk w dt =
      { w with
        entities := w.entities ++
          [createBlock ((if rk < 7/10 then Kind.bad else Kind.good).str ++ "_" ++ toString ⌊w.time * 1000⌋)
            (rx * (cw - BLOCK_SIZE)) (if rk < 7/10 then Kind.bad else Kind.good)]
        spawn := { w.spawn with last := w.time } } := by
  simp only [spawnerSystem]
  rw [if_neg h]
  rfl

/-- Claim C3: when `world.time - spawn.last < spawn.interval` the spawner
stage returns the world unchanged; otherwise it appends exactly one new
block entity starting at `y = -BLOCK_SIZE` with
`falling.speed = falling.baseSpeed = 160`, tagged good or bad, and sets
`spawn.last = world.time`. -/
theorem spawner_gating (cw rx rk : ℚ) (w : World) (dt : ℚ) :
    (w.time - w.spawn.last < w.spawn.interval → spawnerSystem cw rx rk w dt = w)
    ∧ (w.spawn.interval ≤ w.time - w.spawn.last →
        ∃ b : Entity,
          (spawnerSystem cw rx rk w dt).entities = w.entities ++ [b]
          ∧ b.components.position.y = -BLOCK_SIZE
          ∧ b.components.falling = some { baseSpeed := 160, speed := 160 }
          ∧ (b.components.tag = some { kind := Kind.good }
              ∨ b.components.tag = some { kind := Kind.bad })
          ∧ (spawnerSystem cw rx rk w dt).spawn.last = w.time) := by
  constructor
  · intro h
    simp only [spawnerSystem]
    rw [if_pos h]
  · intro h
    rw [spawnerSystem_spawn_eq cw rx rk w dt (not_lt.mpr h)]
    refine ⟨_, rfl, rfl, rfl, ?_, rfl⟩
    by_cases hrk : rk < 7/10
    · right
      simp [createBlock, hrk]
    · left
      simp [createBlock, hrk]

/-- Witness for C3: in `wGateClosed` the gate is shut and the spawner is
the identity; in `wGateOpen` the gate is open and one block is appended. -/
theorem spawner_gating_witness :
    (wGateClosed.time - wGateClosed.spawn.last < wGateClosed.spawn.interval)
    ∧ spawnerSystem 800 (1/2) (1/2) wGateClosed (1/60) = wGateClosed
    ∧ (wGateOpen.spawn.interval ≤ wGateOpen.time - wGateOpen.spawn.last)
    ∧ (∃ b : Entity,
        (spawnerSystem 800 (1/2) (1/2) wGateOpen (1/60)).entities = wGateOpen.entities ++ [b]
        ∧ b.components.position.y = -BLOCK_SIZE
        ∧ b.components.falling = some { baseSpeed := 160, speed := 160 }
        ∧ (b.components.tag = some { kind := Kind.good }
            ∨ b.components.tag = some { kind := Kind.bad })
        ∧ (spawnerSystem 800 (1/2) (1/2) wGateOpen (1/60)).spawn.last = wGateOpen.time) :=
  ⟨by norm_num [wGateClosed, wSample],
   (spawner_gating 800 (1/2) (1/2) wGateClosed (1/60)).1 (by norm_num [wGateClosed, wSample]),
   by norm_num [wGateOpen, wSample],
   (spawner_gating 800 (1/2) (1/2) wGateOpen (1/60)).2 (by norm_num [wGateOpen, wSample])⟩

theorem moveEntity_of_player (cw : ℚ) (input : Option Input) (dt : ℚ) (e : Entity)
    (hid : e.id = "player") :
    moveEntity cw input dt e =
      { e with components := { e.components with position :=
          { x := max 0 (min (cw - PLAYER_SIZE) (e.components.position.x + playerDx input * dt))
            y := e.components.position.y } } } := by
  unfold moveEntity
  rw [if_neg (by simp [hid])]

theorem moveEntity_of_nonplayer (cw : ℚ) (input : Option Input) (dt : ℚ) (e : Entity)
    (hid : e.id ≠ "player") :
    moveEntity cw input dt e = e := by
  unfold moveEntity
  rw [if_pos hid]

/-- Claim C4, amended: the claim as stated fails when
`canvas_width < PLAYER_SIZE` (see the counterexample); under the added
hypothesis `PLAYER_SIZE ≤ canvas_width`, for every world containing a
player entity, every `dt ≥ 0` and every input combination, the player's
new x equals `clamp(old x + velocity*dt, 0, canvas_width - PLAYER_SIZE)`,
lies in `[0, canvas_width - PLAYER_SIZE]`, its y is unchanged, and
non-player entities pass through unchanged. -/
theorem movement_clamps (cw : ℚ) (w : World) (dt : ℚ) (e : Entity)
    (hdt : 0 ≤ dt) (hcw : PLAYER_SIZE ≤ cw)
    (he : e ∈ w.entities) (hid : e.id = "player") :
    (∀ i : Input, playerDx (some i)
        = if i.left = i.right then 0 else if i.left then -350 else 350)
    ∧ (∃ e2 ∈ (movementSystem cw w dt).entities,
        e2.id = "player"
        ∧ e2.components.position.x
            = max 0 (min (cw - PLAYER_SIZE) (e.components.position.x + playerDx w.input * dt))
        ∧ 0 ≤ e2.components.position.x
        ∧ e2.components.position.x ≤ cw - PLAYER_SIZE
        ∧ e2.components.position.y = e.components.position.y)
    ∧ (∀ e3 ∈ w.entities, e3.id ≠ "player" → e3 ∈ (movementSystem cw w dt).entities) := by
  refine ⟨?_, ?_, ?_⟩
  · rintro ⟨l, r⟩
    cases l <;> cases r <;> norm_num [playerDx]
  · refine ⟨moveEntity cw w.input dt e, List.mem_map_of_mem _ he, ?_⟩
    rw [moveEntity_of_player cw w.input dt e hid]
    refine ⟨hid, rfl, le_max_left 0 _, ?_, rfl⟩
    exact max_le (by linarith) (min_le_left _ _)
  · intro e3 he3 hid3
    have : moveEntity cw w.input dt e3 = e3 := moveEntity_of_nonplayer cw w.input dt e3 hid3
    exact this ▸ List.mem_map_of_mem _ he3

/-- Counterexample to C4 as stated: with `canvas_width = 100 < 150` the
post-movement player x is `0`, which does not lie in
`[0, canvas_width - PLAYER_SIZE] = [0, -50]`. -/
theorem movement_clamps_counterexample :
    ∃ e ∈ (movementSystem 100 wSmall (1/60)).entities,
      e.id = "player" ∧ e.components.position.x = 0
      ∧ ¬ (e.components.position.x ≤ 100 - PLAYER_SIZE) := by
  norm_num +decide [movementSystem, moveEntity, wSmall, wSample, plSmall, playerDx, PLAYER_SIZE]

/-- Witness for C4: a live world with the player at `x = 100`, canvas
width `800`, no keys held. -/
theorem movement_clamps_witness :
    ((0:ℚ) ≤ 1/60) ∧ (PLAYER_SIZE ≤ (800:ℚ)) ∧ plW ∈ wSample.entities ∧ plW.id = "player"
    ∧ ((∀ i : Input, playerDx (some i)
          = if i.left = i.right then 0 else if i.left then -350 else 350)
      ∧ (∃ e2 ∈ (movementSystem 800 wSample (1/60)).entities,
          e2.id = "player"
          ∧ e2.components.position.x
              = max 0 (min (800 - PLAYER_SIZE) (plW.components.position.x + playerDx wSample.input * (1/60)))
          ∧ 0 ≤ e2.components.position.x
          ∧ e2.components.position.x ≤ 800 - PLAYER_SIZE
          ∧ e2.components.position.y = plW.components.position.y)
      ∧ (∀ e3 ∈ wSample.entities, e3.id ≠ "player" → e3 ∈ (movementSystem 800 wSample (1/60)).entities)) :=
  ⟨by norm_num, by norm_num [PLAYER_SIZE], by simp [wSample], rfl,
   movement_clamps 800 wSample (1/60) plW (by norm_num) (by norm_num [PLAYER_SIZE])
     (by simp [wSample]) rfl⟩

/-- Claim C10: the movement stage clamps with the fixed constant
`PLAYER_SIZE = 150` (not the player's `size` component, which it leaves
unchanged), applying the lower bound `0` after the upper bound
`canvas_width - 150`; hence when `canvas_width < 150` the resulting x is
`0`, which is greater than `canvas_width - 150`. -/
theorem movement_uses_constant (cw : ℚ) (w : World) (dt : ℚ) (e : Entity)
    (he : e ∈ w.entities) (hid : e.id = "player") :
    ∃ e2 ∈ (movementSystem cw w dt).entities,
      e2.id = "player"
      ∧ e2.components.position.x
          = max 0 (min (cw - PLAYER_SIZE) (e.components.position.x + playerDx w.input * dt))
      ∧ e2.components.size = e.components.size
      ∧ (cw < PLAYER_SIZE →
          e2.components.position.x = 0 ∧ cw - PLAYER_SIZE < e2.components.position.x) := by
  refine ⟨moveEntity cw w.input dt e, List.mem_map_of_mem _ he, ?_⟩
  rw [moveEntity_of_player cw w.input dt e hid]
  refine ⟨hid, rfl, rfl, ?_⟩
  intro hcw
  have hneg : min (cw - PLAYER_SIZE) (e.components.position.x + playerDx w.input * dt) ≤ 0 :=
    le_trans (min_le_left _ _) (by linarith)
  constructor
  · exact max_eq_left hneg
  · show cw - PLAYER_SIZE
      < max 0 (min (cw - PLAYER_SIZE) (e.components.position.x + playerDx w.input * dt))
    rw [max_eq_left hneg]
    linarith

/-- Witness for C10: a player whose `size.w = 70 ≠ 150` on a canvas of
width `100 < 150`; the clamp still uses `150` and yields `x = 0`. -/
theorem movement_uses_constant_witness :
    plSmall ∈ wSmall.entities ∧ plSmall.id = "player"
    ∧ (∃ e2 ∈ (movementSystem 100 wSmall (1/60)).entities,
        e2.id = "player"
        ∧ e2.components.position.x
            = max 0 (min (100 - PLAYER_SIZE) (plSmall.components.position.x + playerDx wSmall.input * (1/60)))
        ∧ e2.components.size = plSmall.components.size
        ∧ (100 < PLAYER_SIZE →
            e2.components.position.x = 0 ∧ 100 - PLAYER_SIZE < e2.components.position.x)) :=
  ⟨by simp [wSmall, wSample], rfl,
   movement_uses_constant 100 wSmall (1/60) plSmall (by simp [wSmall, wSample]) rfl⟩

theorem applySpeedMult_applySpeedMult (m : ℚ) (e : Entity) :
    applySpeedMult m (applySpeedMult m e) = applySpeedMult m e := by
  unfold applySpeedMult
  cases hf : e.components.falling <;> simp [hf]

/-- Claim C5: the difficulty stage is idempotent at a fixed `time`: a
second application returns the same world, the spawn interval is
`max(baseInterval * (1/factor) ^ floor(time/step), minInterval)`, and
every falling entity's speed is `baseSpeed * factor ^ floor(time/step)`,
with no compounding across applications. -/
theorem difficulty_idempotent (w : World) (dt dt2 : ℚ) :
    difficultySystem (difficultySystem w dt) dt2 = difficultySystem w dt
    ∧ (difficultySystem w dt).spawn.interval
        = max (w.spawn.baseInterval * (1 / w.difficulty.factor) ^ ⌊w.time / w.difficulty.step⌋)
            w.spawn.minInterval
    ∧ ∀ e ∈ (difficultySystem w dt).entities, ∀ f, e.components.falling = some f →
        f.speed = f.baseSpeed * w.difficulty.factor ^ ⌊w.time / w.difficulty.step⌋ := by
  refine ⟨?_, rfl, ?_⟩
  · apply World.ext <;> try rfl
    show List.map (applySpeedMult (w.difficulty.factor ^ ⌊w.time / w.difficulty.step⌋))
        (List.map (applySpeedMult (w.difficulty.factor ^ ⌊w.time / w.difficulty.step⌋)) w.entities)
      = List.map (applySpeedMult (w.difficulty.factor ^ ⌊w.time / w.difficulty.step⌋)) w.entities
    rw [List.map_map]
    exact List.map_congr_left fun e _ => applySpeedMult_applySpeedMult _ e
  · intro e he f hf
    obtain ⟨e0, _, rfl⟩ := List.mem_map.mp he
    unfold applySpeedMult at hf
    cases hf0 : e0.components.falling with
    | none =>
      rw [hf0] at hf
      simp at hf
      rw [hf0] at hf
      cases hf
    | some f0 =>
      rw [hf0] at hf
      simp at hf
      rw [← hf]

/-- Witness for C5: the sample world at `time = 1`. -/
theorem difficulty_idempotent_witness :
    difficultySystem (difficultySystem wSample (1/60)) (1/60) = difficultySystem wSample (1/60)
    ∧ (difficultySystem wSample (1/60)).spawn.interval
        = max (wSample.spawn.baseInterval
            * (1 / wSample.difficulty.factor) ^ ⌊wSample.time / wSample.difficulty.step⌋)
            wSample.spawn.minInterval
    ∧ ∀ e ∈ (difficultySystem wSample (1/60)).entities, ∀ f, e.components.falling = some f →
        f.speed = f.baseSpeed * wSample.difficulty.factor ^ ⌊wSample.time / wSample.difficulty.step⌋ :=
  difficulty_idempotent wSample (1/60) (1/60)

/-- Claim C8: the cleanup stage retains every untagged entity, and removes
a tagged entity exactly when `y ≥ canvas_height + size.h` (so an entity at
the boundary `y = canvas_height + size.h` is removed, and one at any
smaller `y` is retained). -/
theorem cleanup_removes_offscreen (ch : ℚ) (w : World) (dt : ℚ) (e : Entity)
    (he : e ∈ w.entities) :
    (e.components.tag = none → e ∈ (cleanupSystem ch w dt).entities)
    ∧ (∀ t, e.components.tag = some t →
        (e ∉ (cleanupSystem ch w dt).entities
          ↔ ch + e.components.size.h ≤ e.components.position.y)) := by
  constructor
  · intro htag
    refine List.mem_filter.mpr ⟨he, ?_⟩
    unfold cleanupKeep
    rw [htag]
  · intro t htag
    have hmem : e ∈ (cleanupSystem ch w dt).entities
        ↔ e.components.position.y < ch + e.components.size.h := by
      show e ∈ w.entities.filter (cleanupKeep ch) ↔ _
      rw [List.mem_filter]
      unfold cleanupKeep
      rw [htag]
      simp [he]
    rw [hmem, not_lt]

/-- Witness for C8 at `canvas_height = 600`: a block with `h = 70` exactly
at `y = 670` is removed, a block at `y = 669` is retained, and the
untagged player is retained. -/
theorem cleanup_removes_offscreen_witness :
    blockAtBoundary ∈ wCleanup.entities
    ∧ ((blockAtBoundary.components.tag = none →
          blockAtBoundary ∈ (cleanupSystem 600 wCleanup (1/60)).entities)
      ∧ (∀ t, blockAtBoundary.components.tag = some t →
          (blockAtBoundary ∉ (cleanupSystem 600 wCleanup (1/60)).entities
            ↔ 600 + blockAtBoundary.components.size.h ≤ blockAtBoundary.components.position.y)))
    ∧ blockAboveBoundary ∈ wCleanup.entities
    ∧ ((blockAboveBoundary.components.tag = none →
          blockAboveBoundary ∈ (cleanupSystem 600 wCleanup (1/60)).entities)
      ∧ (∀ t, blockAboveBoundary.components.tag = some t →
          (blockAboveBoundary ∉ (cleanupSystem 600 wCleanup (1/60)).entities
            ↔ 600 + blockAboveBoundary.components.size.h ≤ blockAboveBoundary.components.position.y)))
    ∧ plW ∈ wCleanup.entities
    ∧ ((plW.components.tag = none → plW ∈ (cleanupSystem 600 wCleanup (1/60)).entities)
      ∧ (∀ t, plW.components.tag = some t →
          (plW ∉ (cleanupSystem 600 wCleanup (1/60)).entities
            ↔ 600 + plW.components.size.h ≤ plW.components.position.y))) :=
  ⟨by simp [wCleanup, wSample],
   cleanup_removes_offscreen 600 wCleanup (1/60) blockAtBoundary (by simp [wCleanup, wSample]),
   by simp [wCleanup, wSample],
   cleanup_removes_offscreen 600 wCleanup (1/60) blockAboveBoundary (by simp [wCleanup, wSample]),
   by simp [wCleanup, wSample],
   cleanup_removes_offscreen 600 wCleanup (1/60) plW (by simp [wCleanup, wSample])⟩

/-- Claim C9: with no `"player"` entity present, the movement stage leaves
entities, score and game unchanged and the collision stage returns its
input world unchanged (silent no-ops); and with `world.input` absent the
movement stage behaves exactly as if both keys were released. -/
theorem missing_player_and_input_noops (cw : ℚ) (w v : World) (dt : ℚ)
    (hnp : ∀ e ∈ w.entities, e.id ≠ "player")
    (hin : v.input = none) :
    (movementSystem cw w dt).entities = w.entities
    ∧ (movementSystem cw w dt).score = w.score
    ∧ (movementSystem cw w dt).game = w.game
    ∧ collisionSystem w dt = w
    ∧ (movementSystem cw v dt).entities
        = (movementSystem cw { v with input := some { left := false, right := false } } dt).entities := by
  have hmap : w.entities.map (moveEntity cw w.input dt) = w.entities := by
    have h1 : w.entities.map (moveEntity cw w.input dt) = w.entities.map id :=
      List.map_congr_left fun e he => moveEntity_of_nonplayer cw w.input dt e (hnp e he)
    rw [h1, List.map_id]
  have hfind : w.entities.find? (fun e => e.id == "player") = none :=
    List.find?_eq_none.mpr fun e he => by simp [hnp e he]
  refine ⟨hmap, rfl, rfl, ?_, ?_⟩
  · unfold collisionSystem
    rw [hfind]
    split <;> rfl
  · show v.entities.map (moveEntity cw v.input dt)
      = v.entities.map (moveEntity cw (some { left := false, right := false }) dt)
    rw [hin]
    rfl

/-- Witness for C9: `wNoPlayer` has only blocks, and `wSample` has no
`input` field yet. -/
theorem missing_player_and_input_noops_witness :
    (∀ e ∈ wNoPlayer.entities, e.id ≠ "player")
    ∧ wSample.input = none
    ∧ ((movementSystem 800 wNoPlayer (1/60)).entities = wNoPlayer.entities
      ∧ (movementSystem 800 wNoPlayer (1/60)).score = wNoPlayer.score
      ∧ (movementSystem 800 wNoPlayer (1/60)).game = wNoPlayer.game
      ∧ collisionSystem wNoPlayer (1/60) = wNoPlayer
      ∧ (movementSystem 800 wSample (1/60)).entities
          = (movementSystem 800 { wSample with input := some { left := false, right := false } } (1/60)).entities) :=
  ⟨by simp [wNoPlayer, wSample, goodW, badW],
   rfl,
   missing_player_and_input_noops 800 wNoPlayer wSample (1/60)
     (by simp [wNoPlayer, wSample, goodW, badW]) rfl⟩

theorem spawnerSystem_time (cw rx rk : ℚ) (w : World) (dt : ℚ) :
    (spawnerSystem cw rx rk w dt).time = w.time := by
  simp only [spawnerSystem]
  split <;> rfl

theorem spawnerSystem_score (cw rx rk : ℚ) (w : World) (dt : ℚ) :
    (spawnerSystem cw rx rk w dt).score = w.score := by
  simp only [spawnerSystem]
  split <;> rfl

theorem spawnerSystem_game (cw rx rk : ℚ) (w : World) (dt : ℚ) :
    (spawnerSystem cw rx rk w dt).game = w.game := by
  simp only [spawnerSystem]
  split <;> rfl

theorem collisionSystem_time (w : World) (dt : ℚ) :
    (collisionSystem w dt).time = w.time := by
  unfold collisionSystem
  split
  · rfl
  · split <;> rfl

theorem collisionSystem_score_mono (w : World) (dt : ℚ) :
    w.score ≤ (collisionSystem w dt).score := by
  unfold collisionSystem
  split
  · exact le_refl _
  · split
    · exact le_refl _
    · exact Nat.le_add_right _ _

theorem collisionSystem_of_over (w : World) (dt : ℚ) (h : w.game.over = true) :
    collisionSystem w dt = w := by
  unfold collisionSystem
  rw [h]
  rfl

/-- The pipeline, unfolded into its eight stages in source order. -/
theorem update_eq (cw ch : ℚ) (inp : Input) (rx rk : ℚ) (w : World) (dt : ℚ) :
    update cw ch inp rx rk w dt =
      cleanupSystem ch
        (collisionSystem
          (difficultySystem
            (fallingSystem
              (spawnerSystem cw rx rk
                (movementSystem cw
                  (inputSystem inp
                    (timeSystem w dt) dt) dt) dt) dt) dt) dt) dt := rfl

theorem update_time (cw ch : ℚ) (inp : Input) (rx rk : ℚ) (w : World) (dt : ℚ) :
    (update cw ch inp rx rk w dt).time = w.time + dt := by
  rw [update_eq]
  show (collisionSystem _ _).time = _
  rw [collisionSystem_time]
  show (spawnerSystem _ _ _ _ _).time = _
  rw [spawnerSystem_time]
  rfl

theorem preCollision_score (cw : ℚ) (inp : Input) (rx rk : ℚ) (w : World) (dt : ℚ) :
    (difficultySystem
      (fallingSystem
        (spawnerSystem cw rx rk
          (movementSystem cw
            (inputSystem inp
              (timeSystem w dt) dt) dt) dt) dt) dt).score = w.score := by
  show (spawnerSystem _ _ _ _ _).score = _
  rw [spawnerSystem_score]
  rfl

theorem preCollision_game (cw : ℚ) (inp : Input) (rx rk : ℚ) (w : World) (dt : ℚ) :
    (difficultySystem
      (fallingSystem
        (spawnerSystem cw rx rk
          (movementSystem cw
            (inputSystem inp
              (timeSystem w dt) dt) dt) dt) dt) dt).game = w.game := by
  show (spawnerSystem _ _ _ _ _).game = _
  rw [spawnerSystem_game]
  rfl

theorem update_score_mono (cw ch : ℚ) (inp : Input) (rx rk : ℚ) (w : World) (dt : ℚ) :
    w.score ≤ (update cw ch inp rx rk w dt).score := by
  rw [update_eq]
  show w.score ≤ (collisionSystem _ _).score
  calc w.score = _ := (preCollision_score cw inp rx rk w dt).symm
    _ ≤ _ := collisionSystem_score_mono _ _

theorem update_over_frozen (cw ch : ℚ) (inp : Input) (rx rk : ℚ) (w : World) (dt : ℚ)
    (h : w.game.over = true) :
    (update cw ch inp rx rk w dt).score = w.score
    ∧ (update cw ch inp rx rk w dt).game.over = true := by
  rw [update_eq]
  have hover : (difficultySystem
      (fallingSystem
        (spawnerSystem cw rx rk
          (movementSystem cw
            (inputSystem inp
              (timeSystem w dt) dt) dt) dt) dt) dt).game.over = true := by
    rw [preCollision_game]
    exact h
  rw [show cleanupSystem ch
        (collisionSystem
          (difficultySystem
            (fallingSystem
              (spawnerSystem cw rx rk
                (movementSystem cw
                  (inputSystem inp
                    (timeSystem w dt) dt) dt) dt) dt) dt) dt) dt
      = cleanupSystem ch
        (difficultySystem
          (fallingSystem
            (spawnerSystem cw rx rk
              (movementSystem cw
                (inputSystem inp
                  (timeSystem w dt) dt) dt) dt) dt) dt) dt
    from congrArg (fun v => cleanupSystem ch v dt) (collisionSystem_of_over _ _ hover)]
  constructor
  · show (spawnerSystem _ _ _ _ _).score = _
    rw [spawnerSystem_score]
    rfl
  · show (spawnerSystem _ _ _ _ _).game.over = _
    rw [spawnerSystem_game]
    exact h

theorem runTicks_time_mono (cw ch : ℚ) (ticks : List Tick) :
    ∀ w : World, (∀ t ∈ ticks, 0 ≤ t.dt) → w.time ≤ (runTicks cw ch w ticks).time := by
  induction ticks with
  | nil => exact fun w _ => le_refl _
  | cons t ts ih =>
    intro w h
    have h0 : 0 ≤ t.dt := h t (List.mem_cons_self t ts)
    have hrest := ih (update cw ch t.input t.rx t.rk w t.dt)
      (fun s hs => h s (List.mem_cons_of_mem t hs))
    refine le_trans ?_ hrest
    rw [update_time]
    linarith

theorem runTicks_score_mono (cw ch : ℚ) (ticks : List Tick) :
    ∀ w : World, w.score ≤ (runTicks cw ch w ticks).score := by
  induction ticks with
  | nil => exact fun w => le_refl _
  | cons t ts ih =>
    intro w
    exact le_trans (update_score_mono cw ch t.input t.rx t.rk w t.dt)
      (ih (update cw ch t.input t.rx t.rk w t.dt))

theorem runTicks_frozen (cw ch : ℚ) (ticks : List Tick) :
    ∀ w : World, w.game.over = true →
      (runTicks cw ch w ticks).score = w.score ∧ (runTicks cw ch w ticks).game.over = true := by
  induction ticks with
  | nil => exact fun w _ => ⟨rfl, by assumption⟩
  | cons t ts ih =>
    intro w h
    have hstep := update_over_frozen cw ch t.input t.rx t.rk w t.dt h
    have hrest := ih (update cw ch t.input t.rx t.rk w t.dt) hstep.2
    exact ⟨hrest.1.trans hstep.1, hrest.2⟩

/-- Claim C6: across any sequence of pipeline passes with `dt ≥ 0`, time
is non-decreasing, score is non-decreasing, and once `game.over` is true
the score is frozen and the game stays over; the collision stage — the
only writer of `score` — returns its input world unchanged whenever
`game.over` holds. -/
theorem time_score_monotone (cw ch : ℚ) (w : World) (ticks : List Tick)
    (hdt : ∀ t ∈ ticks, 0 ≤ t.dt) :
    w.time ≤ (runTicks cw ch w ticks).time
    ∧ w.score ≤ (runTicks cw ch w ticks).score
    ∧ (w.game.over = true →
        (runTicks cw ch w ticks).score = w.score ∧ (runTicks cw ch w ticks).game.over = true)
    ∧ (∀ v : World, ∀ d : ℚ, v.game.over = true → collisionSystem v d = v) :=
  ⟨runTicks_time_mono cw ch ticks w hdt,
   runTicks_score_mono cw ch ticks w,
   runTicks_frozen cw ch ticks w,
   fun v d hv => collisionSystem_of_over v d hv⟩

/-- Witness for C6: two ticks on an already-over world. -/
theorem time_score_monotone_witness :
    (∀ t ∈ [({ dt := 1/60, input := { left := false, right := false }, rx := 1/2, rk := 1/2 } : Tick),
             { dt := 1/30, input := { left := true, right := false }, rx := 1/3, rk := 9/10 }], 0 ≤ t.dt)
    ∧ (wOver.time ≤ (runTicks 800 600 wOver
          [{ dt := 1/60, input := { left := false, right := false }, rx := 1/2, rk := 1/2 },
           { dt := 1/30, input := { left := true, right := false }, rx := 1/3, rk := 9/10 }]).time
      ∧ wOver.score ≤ (runTicks 800 600 wOver
          [{ dt := 1/60, input := { left := false, right := false }, rx := 1/2, rk := 1/2 },
           { dt := 1/30, input := { left := true, right := false }, rx := 1/3, rk := 9/10 }]).score
      ∧ (wOver.game.over = true →
          (runTicks 800 600 wOver
            [{ dt := 1/60, input := { left := false, right := false }, rx := 1/2, rk := 1/2 },
             { dt := 1/30, input := { left := true, right := false }, rx := 1/3, rk := 9/10 }]).score = wOver.score
          ∧ (runTicks 800 600 wOver
              [{ dt := 1/60, input := { left := false, right := false }, rx := 1/2, rk := 1/2 },
               { dt := 1/30, input := { left := true, right := false }, rx := 1/3, rk := 9/10 }]).game.over = true)
      ∧ (∀ v : World, ∀ d : ℚ, v.game.over = true → collisionSystem v d = v)) :=
  ⟨by intro t ht
      simp only [List.mem_cons, List.not_mem_nil, or_false] at ht
      rcases ht with h | h <;> rw [h] <;> norm_num,
   time_score_monotone 800 600 wOver _
     (by intro t ht
         simp only [List.mem_cons, List.not_mem_nil, or_false] at ht
         rcases ht with h | h <;> rw [h] <;> norm_num)⟩

/-- The well-formedness facts about a world's entity list that the player
uniqueness claim needs: exactly one entity has id `"player"`, and (per the
data-model invariant of the spec) a `"player"` entity carries no tag. -/
def PlayerOK (l : List Entity) : Prop :=
  l.countP (fun e => e.id == "player") = 1
  ∧ ∀ e ∈ l, e.id = "player" → e.components.tag = none

theorem moveEntity_id (cw : ℚ) (input : Option Input) (dt : ℚ) (e : Entity) :
    (moveEntity cw input dt e).id = e.id := by
  unfold moveEntity
  split <;> rfl

theorem moveEntity_tag (cw : ℚ) (input : Option Input) (dt : ℚ) (e : Entity) :
    (moveEntity cw input dt e).components.tag = e.components.tag := by
  unfold moveEntity
  split <;> rfl

theorem fallEntity_id (dt : ℚ) (e : Entity) : (fallEntity dt e).id = e.id := by
  unfold fallEntity
  split <;> rfl

theorem fallEntity_tag (dt : ℚ) (e : Entity) :
    (fallEntity dt e).components.tag = e.components.tag := by
  unfold fallEntity
  split <;> rfl

theorem applySpeedMult_id (m : ℚ) (e : Entity) : (applySpeedMult m e).id = e.id := by
  unfold applySpeedMult
  split <;> rfl

theorem applySpeedMult_tag (m : ℚ) (e : Entity) :
    (applySpeedMult m e).components.tag = e.components.tag := by
  unfold applySpeedMult
  split <;> rfl

theorem playerOK_map (f : Entity → Entity) (l : List Entity)
    (hid : ∀ e, (f e).id = e.id)
    (htag : ∀ e, (f e).components.tag = e.components.tag)
    (h : PlayerOK l) : PlayerOK (l.map f) := by
  constructor
  · rw [List.countP_map]
    have hc : List.countP ((fun e => e.id == "player") ∘ f) l
        = List.countP (fun e => e.id == "player") l :=
      List.countP_congr fun e _ => by simp [Function.comp, hid e]
    rw [hc]
    exact h.1
  · intro e he hide
    obtain ⟨e0, he0, rfl⟩ := List.mem_map.mp he
    rw [htag e0]
    exact h.2 e0 he0 (by rw [← hid e0]; exact hide)

theorem playerOK_filter (q : Entity → Bool) (l : List Entity)
    (hq : ∀ e ∈ l, e.components.tag = none → q e = true)
    (h : PlayerOK l) : PlayerOK (l.filter q) := by
  constructor
  · have hcnt : ∀ l' : List Entity,
        (∀ e ∈ l', (e.id == "player") = true → q e = true) →
        (l'.filter q).countP (fun e => e.id == "player")
          = l'.countP (fun e => e.id == "player") := by
      intro l' hkeep
      induction l' with
      | nil => rfl
      | cons a as ih =>
        have ih' := ih fun e he hp => hkeep e (List.mem_cons_of_mem a he) hp
        by_cases hqa : q a = true
        · rw [List.filter_cons_of_pos hqa, List.countP_cons, List.countP_cons, ih']
        · have hpa : (a.id == "player") = false := by
            cases hp : (a.id == "player")
            · rfl
            · exact absurd (hkeep a (List.mem_cons_self a as) hp) hqa
          rw [List.filter_cons_of_neg hqa, List.countP_cons, ih', hpa]
          simp
    rw [hcnt l fun e he hp => hq e he (h.2 e he (by simpa using hp))]
    exact h.1
  · intro e he hide
    exact h.2 e (List.mem_filter.mp he).1 hide

theorem playerOK_append (b : Entity) (l : List Entity) (hb : b.id ≠ "player")
    (h : PlayerOK l) : PlayerOK (l ++ [b]) := by
  constructor
  · rw [List.countP_append]
    have : List.countP (fun e => e.id == "player") [b] = 0 := by
      simp [List.countP_cons, hb]
    rw [this, Nat.add_zero]
    exact h.1
  · intro e he hide
    rcases List.mem_append.mp he with h1 | h1
    · exact h.2 e h1 hide
    · rw [List.mem_singleton.mp h1] at hide
      exact absurd hide hb

theorem kindStr_append_ne_player (k : Kind) (s : String) :
    (k.str ++ "_" ++ s) ≠ "player" := by
  intro h
  have hd := congrArg String.data h
  rw [String.data_append, String.data_append] at hd
  cases k <;> simp [Kind.str] at hd

theorem playerOK_timeSystem (w : World) (dt : ℚ) (h : PlayerOK w.entities) :
    PlayerOK (timeSystem w dt).entities := h

theorem playerOK_inputSystem (inp : Input) (w : World) (dt : ℚ) (h : PlayerOK w.entities) :
    PlayerOK (inputSystem inp w dt).entities := h

theorem playerOK_movementSystem (cw : ℚ) (w : World) (dt : ℚ) (h : PlayerOK w.entities) :
    PlayerOK (movementSystem cw w dt).entities :=
  playerOK_map _ _ (moveEntity_id cw w.input dt) (moveEntity_tag cw w.input dt) h

theorem playerOK_spawnerSystem (cw rx rk : ℚ) (w : World) (dt : ℚ) (h : PlayerOK w.entities) :
    PlayerOK (spawnerSystem cw rx rk w dt).entities := by
  by_cases hc : w.time - w.spawn.last < w.spawn.interval
  · have : spawnerSystem cw rx rk w dt = w := by
      simp only [spawnerSystem]
      rw [if_pos hc]
    rw [this]
    exact h
  · rw [spawnerSystem_spawn_eq cw rx rk w dt hc]
    exact playerOK_append _ _ (kindStr_append_ne_player _ _) h

theorem playerOK_fallingSystem (w : World) (dt : ℚ) (h : PlayerOK w.entities) :
    PlayerOK (fallingSystem w dt).entities :=
  playerOK_map _ _ (fallEntity_id dt) (fallEntity_tag dt) h

theorem playerOK_difficultySystem (w : World) (dt : ℚ) (h : PlayerOK w.entities) :
    PlayerOK (difficultySystem w dt).entities :=
  playerOK_map _ _ (applySpeedMult_id _) (applySpeedMult_tag _) h

theorem playerOK_collisionSystem (w : World) (dt : ℚ) (h : PlayerOK w.entities) :
    PlayerOK (collisionSystem w dt).entities := by
  unfold collisionSystem
  split
  · exact h
  · split
    · exact h
    · exact playerOK_filter _ _ (fun e _ htag => collisionKeep_of_untagged _ e htag) h

theorem playerOK_cleanupSystem (ch : ℚ) (w : World) (dt : ℚ) (h : PlayerOK w.entities) :
    PlayerOK (cleanupSystem ch w dt).entities := by
  refine playerOK_filter _ _ (fun e _ htag => ?_) h
  unfold cleanupKeep
  rw [htag]

theorem playerOK_update (cw ch : ℚ) (inp : Input) (rx rk : ℚ) (w : World) (dt : ℚ)
    (h : PlayerOK w.entities) : PlayerOK (update cw ch inp rx rk w dt).entities := by
  rw [update_eq]
  exact playerOK_cleanupSystem ch _ dt
    (playerOK_collisionSystem _ dt
      (playerOK_difficultySystem _ dt
        (playerOK_fallingSystem _ dt
          (playerOK_spawnerSystem cw rx rk _ dt
            (playerOK_movementSystem cw _ dt
              (playerOK_inputSystem inp _ dt
                (playerOK_timeSystem w dt h)))))))

/-- Claim C7: every pipeline stage, and the composed pipeline, preserves
the presence and uniqueness of the `"player"` entity — for any world whose
entity list contains exactly one entity with id `"player"` (untagged, per
the data-model invariant that the player never carries a tag), every
stage's output again contains exactly one; and the collision and cleanup
stages keep every untagged entity. -/
theorem player_preserved (cw ch : ℚ) (inp : Input) (rx rk : ℚ) (w : World) (dt : ℚ)
    (h1 : w.entities.countP (fun e => e.id == "player") = 1)
    (h2 : ∀ e ∈ w.entities, e.id = "player" → e.components.tag = none) :
    (timeSystem w dt).entities.countP (fun e => e.id == "player") = 1
    ∧ (inputSystem inp w dt).entities.countP (fun e => e.id == "player") = 1
    ∧ (movementSystem cw w dt).entities.countP (fun e => e.id == "player") = 1
    ∧ (spawnerSystem cw rx rk w dt).entities.countP (fun e => e.id == "player") = 1
    ∧ (fallingSystem w dt).entities.countP (fun e => e.id == "player") = 1
    ∧ (difficultySystem w dt).entities.countP (fun e => e.id == "player") = 1
    ∧ (collisionSystem w dt).entities.countP (fun e => e.id == "player") = 1
    ∧ (cleanupSystem ch w dt).entities.countP (fun e => e.id == "player") = 1
    ∧ (update cw ch inp rx rk w dt).entities.countP (fun e => e.id == "player") = 1
    ∧ (∀ e ∈ w.entities, e.components.tag = none → e ∈ (collisionSystem w dt).entities)
    ∧ (∀ e ∈ w.entities, e.components.tag = none → e ∈ (cleanupSystem ch w dt).entities) := by
  have h : PlayerOK w.entities := ⟨h1, h2⟩
  refine ⟨(playerOK_timeSystem w dt h).1, (playerOK_inputSystem inp w dt h).1,
    (playerOK_movementSystem cw w dt h).1, (playerOK_spawnerSystem cw rx rk w dt h).1,
    (playerOK_fallingSystem w dt h).1, (playerOK_difficultySystem w dt h).1,
    (playerOK_collisionSystem w dt h).1, (playerOK_cleanupSystem ch w dt h).1,
    (playerOK_update cw ch inp rx rk w dt h).1, ?_, ?_⟩
  · intro e he htag
    unfold collisionSystem
    split
    · exact he
    · split
      · exact he
      · exact List.mem_filter.mpr ⟨he, collisionKeep_of_untagged _ e htag⟩
  · intro e he htag
    refine List.mem_filter.mpr ⟨he, ?_⟩
    unfold cleanupKeep
    rw [htag]

/-- Witness for C7: the sample world with its single untagged player. -/
theorem player_preserved_witness :
    wSample.entities.countP (fun e => e.id == "player") = 1
    ∧ (∀ e ∈ wSample.entities, e.id = "player" → e.components.tag = none)
    ∧ ((timeSystem wSample (1/60)).entities.countP (fun e => e.id == "player") = 1
      ∧ (inputSystem { left := false, right := false } wSample (1/60)).entities.countP
          (fun e => e.id == "player") = 1
      ∧ (movementSystem 800 wSample (1/60)).entities.countP (fun e => e.id == "player") = 1
      ∧ (spawnerSystem 800 (1/2) (1/2) wSample (1/60)).entities.countP
          (fun e => e.id == "player") = 1
      ∧ (fallingSystem wSample (1/60)).entities.countP (fun e => e.id == "player") = 1
      ∧ (difficultySystem wSample (1/60)).entities.countP (fun e => e.id == "player") = 1
      ∧ (collisionSystem wSample (1/60)).entities.countP (fun e => e.id == "player") = 1
      ∧ (cleanupSystem 600 wSample (1/60)).entities.countP (fun e => e.id == "player") = 1
      ∧ (update 800 600 { left := false, right := false } (1/2) (1/2) wSample (1/60)).entities.countP
          (fun e => e.id == "player") = 1
      ∧ (∀ e ∈ wSample.entities, e.components.tag = none →
          e ∈ (collisionSystem wSample (1/60)).entities)
      ∧ (∀ e ∈ wSample.entities, e.components.tag = none →
          e ∈ (cleanupSystem 600 wSample (1/60)).entities)) :=
  ⟨by simp [wSample, plW, goodW, badW, List.countP_cons],
   by simp [wSample, plW, goodW, badW],
   player_preserved 800 600 { left := false, right := false } (1/2) (1/2) wSample (1/60)
     (by simp [wSample, plW, goodW, badW, List.countP_cons])
     (by simp [wSample, plW, goodW, badW])⟩

end Game

